import Mathlib

/- Verification development for the Aptos transaction-execution core
   (aptos-vm). Shallow embedding of `aptos_vm.rs` and
   `move_vm_ext/respawned_session.rs`: pure Rust functions become Lean
   functions, external collaborators (the Move runtime, the gas algebra,
   BCS, base state views) become explicit oracle parameters. -/

namespace AptosVM

/-! ## Status codes and VM statuses -/

/-- Subset of `move_core_types::vm_status::StatusCode` used by the claims,
with a catch-all constructor for all other codes. -/
inductive StatusCode where
  | SEQUENCE_NUMBER_TOO_NEW
  | INVALID_SIGNATURE
  | FEATURE_UNDER_GATING
  | UNKNOWN_INVARIANT_VIOLATION_ERROR
  | CONSTRAINT_NOT_SATISFIED
  | FAILED_TO_DESERIALIZE_ARGUMENT
  | UNREACHABLE
  | SIGNERS_CONTAIN_DUPLICATES
  | EXECUTED
  | other (n : Nat)
  deriving DecidableEq, Repr

/-- `move_core_types::vm_status::VMStatus`, restricted to the two shapes the
embedded code inspects: successful execution and an error status with an
optional message (`VMStatus::error(code, msg)`). -/
inductive VMStatus where
  | Executed
  | Error (code : StatusCode) (msg : Option String)
  deriving DecidableEq, Repr

/-- `VMStatus::status_code()`. -/
def VMStatus.status_code : VMStatus → StatusCode
  | .Executed => .EXECUTED
  | .Error code _ => code

/-! ## Write ops and change sets -/

/-- State keys, abstracted to naturals (`StateKey` is an opaque byte key). -/
abbrev StateKey := Nat

/-- State values (bytes plus metadata), abstracted to naturals. -/
abbrev StateValue := Nat

/-- `MoveTypeLayout`, abstracted: claims only compare layouts for equality. -/
abbrev Layout := Nat

/-- `StructTag`, abstracted: used only as a lookup key in resource groups. -/
abbrev Tag := Nat

/-- An aggregator v1 delta descriptor (`DeltaOp`), abstracted: the overlay
only forwards it to the base view for materialization. -/
abbrev DeltaOp := Nat

/-- `aptos_types::write_set::WriteOp`. -/
inductive WriteOp where
  | Creation (v : StateValue)
  | Modification (v : StateValue)
  | Deletion
  deriving DecidableEq, Repr

/-- `TransactionWrite::as_state_value`: bytes plus metadata for a creation or
modification, `None` for a deletion. -/
def WriteOp.as_state_value : WriteOp → Option StateValue
  | .Creation v => some v
  | .Modification v => some v
  | .Deletion => none

/-- `TransactionWrite::extract_raw_bytes`: raw bytes of a creation or
modification, `None` for a deletion. -/
def WriteOp.extract_raw_bytes : WriteOp → Option StateValue
  | .Creation v => some v
  | .Modification v => some v
  | .Deletion => none

/-- Whether the op is a `Creation`. -/
def WriteOp.is_creation : WriteOp → Bool
  | .Creation _ => true
  | _ => false

/-- `aptos_vm_types::change_set::GroupWrite`: a write to a resource group,
with a metadata op, per-tag inner ops and a group size. -/
structure GroupWrite where
  metadata_op : WriteOp
  inner_ops : List (Tag × (WriteOp × Option Layout))
  size : Nat
  deriving DecidableEq, Repr

/-- An event key; events of version 1 carry one. -/
abbrev EventKey := Nat

/-- `aptos_types::contract_event::ContractEvent`: a v1 event carries an event
key, a v2 event does not. -/
inductive ContractEvent where
  | V1 (key : EventKey) (data : Nat)
  | V2 (data : Nat)
  deriving DecidableEq, Repr

/-- `ContractEvent::event_key()`: the key of a v1 event, otherwise `None`. -/
def ContractEvent.event_key : ContractEvent → Option EventKey
  | .V1 key _ => some key
  | .V2 _ => none

/-- `aptos_vm_types::change_set::VMChangeSet`: pending state mutations plus
events. Maps become association lists (keys are unique in the source's
`BTreeMap`s; a lookup reads the first binding). -/
structure VMChangeSet where
  resource_write_set : List (StateKey × (WriteOp × Option Layout))
  resource_group_write_set : List (StateKey × GroupWrite)
  module_write_set : List (StateKey × WriteOp)
  aggregator_v1_write_set : List (StateKey × WriteOp)
  aggregator_v1_delta_set : List (StateKey × DeltaOp)
  events : List (ContractEvent × Option Layout)
  deriving DecidableEq, Repr

/-- `VMChangeSet::empty()`. -/
def VMChangeSet.empty : VMChangeSet :=
  ⟨[], [], [], [], [], []⟩

/-- Modelled from the spec: `VMChangeSet::has_creation` lives in
`aptos-vm-types` which is not under `src/`; the spec states that
`has_creation()` is true iff any write op in the change set is a
`Creation`. -/
def VMChangeSet.has_creation (cs : VMChangeSet) : Bool :=
  cs.resource_write_set.any (fun kv => kv.2.1.is_creation)
    || cs.resource_group_write_set.any (fun kv =>
        kv.2.metadata_op.is_creation
          || kv.2.inner_ops.any (fun t => t.2.1.is_creation))
    || cs.module_write_set.any (fun kv => kv.2.is_creation)
    || cs.aggregator_v1_write_set.any (fun kv => kv.2.is_creation)

/-! ## Fee statements, outputs, transaction statuses -/

/-- `aptos_types::fee_statement::FeeStatement`. -/
structure FeeStatement where
  gas_used : Nat
  execution_gas_used : Nat
  io_gas_used : Nat
  storage_fee_used : Nat
  storage_fee_refund : Nat
  deriving DecidableEq, Repr

/-- The all-zero fee statement (`FeeStatement::zero()`). -/
def FeeStatement.zero : FeeStatement := ⟨0, 0, 0, 0, 0⟩

/-- `AbortLocation`: where a Move abort originated. -/
inductive AbortLocation where
  | Module (id : Nat)
  | Script
  deriving DecidableEq, Repr

/-- `aptos_types::transaction::ExecutionStatus`, with abort info abstracted
to a string. -/
inductive ExecutionStatus where
  | Success
  | MoveAbort (location : AbortLocation) (code : Nat) (info : Option String)
  | OtherFailure (code : StatusCode)
  deriving DecidableEq, Repr

/-- `aptos_types::transaction::TransactionStatus`. -/
inductive TransactionStatus where
  | Keep (status : ExecutionStatus)
  | Discard (code : StatusCode)
  | Retry
  deriving DecidableEq, Repr

/-- `aptos_vm_types::output::VMOutput`: a change set, a fee statement and a
transaction status. -/
structure VMOutput where
  change_set : VMChangeSet
  fee_statement : FeeStatement
  status : TransactionStatus
  deriving DecidableEq, Repr

/-- `VMOutput::empty_with_status`: empty change set, zero fees. -/
def VMOutput.empty_with_status (status : TransactionStatus) : VMOutput :=
  ⟨VMChangeSet.empty, FeeStatement.zero, status⟩

/-- `discard_error_vm_status` (aptos_vm.rs): pairs the status with an empty
output discarded with the status's code. -/
def discard_error_vm_status (vm_status : VMStatus) : VMStatus × VMOutput :=
  (vm_status, VMOutput.empty_with_status (.Discard vm_status.status_code))

/-! ## RespawnedSession (respawned_session.rs) -/

/-- The state of a `RespawnedSession`: the overlay's change set (owned by the
`ExecutorViewWithChangeSet`), the inner session — modelled by the outcome its
`finish(change_set_configs)` call would produce, and `None` once taken — and
the storage refund. -/
structure RespawnedSessionState where
  overlay_change_set : VMChangeSet
  session : Option (Except VMStatus VMChangeSet)
  storage_refund : Nat

/-- `RespawnedSession::finish`: finalize the inner session into an additional
change set, reject it if it contains any `Creation`, otherwise squash it onto
the overlay's change set. `squash` is the external
`VMChangeSet::squash_additional_change_set` (aptos-vm-types), `none` meaning
it failed. -/
def RespawnedSession.finish
    (squash : VMChangeSet → VMChangeSet → Option VMChangeSet)
    (s : RespawnedSessionState) : Except VMStatus VMChangeSet :=
  match s.session with
  | none =>
      .error (.Error .UNKNOWN_INVARIANT_VIOLATION_ERROR
        (some "VM session cannot be finished more than once."))
  | some sessionFinish =>
      match sessionFinish with
      | .error e => .error e
      | .ok additional_change_set =>
          if additional_change_set.has_creation then
            .error (.Error .UNKNOWN_INVARIANT_VIOLATION_ERROR
              (some "Unexpected storage allocation after respawning session."))
          else
            match squash s.overlay_change_set additional_change_set with
            | some change_set => .ok change_set
            | none =>
                .error (.Error .UNKNOWN_INVARIANT_VIOLATION_ERROR
                  (some "Failed to squash VMChangeSet"))

/-! ## ExecutorViewWithChangeSet (respawned_session.rs) -/

/-- The base `ExecutorView`/`ResourceGroupView` pair the overlay delegates
to, as read oracles. Fallible reads return `Except String` mirroring
`anyhow::Result`. -/
structure BaseExecutorView where
  get_module_state_value : StateKey → Except String (Option StateValue)
  get_resource_state_value : StateKey → Option Layout → Except String (Option StateValue)
  get_aggregator_v1_state_value : StateKey → Except String (Option StateValue)
  try_convert_aggregator_v1_delta_into_write_op : StateKey → DeltaOp → Except String WriteOp
  get_resource_from_group : StateKey → Tag → Option Layout → Except String (Option StateValue)

/-- `ExecutorViewWithChangeSet`: a change set overlaid on base views. -/
structure ExecutorViewWithChangeSet where
  base_executor_view : BaseExecutorView
  change_set : VMChangeSet

/-- `TModuleView::get_module_state_value` for `ExecutorViewWithChangeSet`. -/
def ExecutorViewWithChangeSet.get_module_state_value
    (v : ExecutorViewWithChangeSet) (state_key : StateKey) :
    Except String (Option StateValue) :=
  match v.change_set.module_write_set.lookup state_key with
  | some write_op => .ok write_op.as_state_value
  | none => v.base_executor_view.get_module_state_value state_key

/-- `TResourceView::get_resource_state_value` for
`ExecutorViewWithChangeSet`. -/
def ExecutorViewWithChangeSet.get_resource_state_value
    (v : ExecutorViewWithChangeSet) (state_key : StateKey)
    (maybe_layout : Option Layout) : Except String (Option StateValue) :=
  match v.change_set.resource_write_set.lookup state_key with
  | some (write_op, _) => .ok write_op.as_state_value
  | none => v.base_executor_view.get_resource_state_value state_key maybe_layout

/-- `TAggregatorV1View::get_aggregator_v1_state_value` for
`ExecutorViewWithChangeSet`. -/
def ExecutorViewWithChangeSet.get_aggregator_v1_state_value
    (v : ExecutorViewWithChangeSet) (id : StateKey) :
    Except String (Option StateValue) :=
  match v.change_set.aggregator_v1_delta_set.lookup id with
  | some delta_op =>
      match v.base_executor_view.try_convert_aggregator_v1_delta_into_write_op id delta_op with
      | .ok write_op => .ok write_op.as_state_value
      | .error e => .error e
  | none =>
      match v.change_set.aggregator_v1_write_set.lookup id with
      | some write_op => .ok write_op.as_state_value
      | none => v.base_executor_view.get_aggregator_v1_state_value id

/-! ## randomly_check_layout_matches (respawned_session.rs) -/

/-- A `PanicError` from `code_invariant_error`. -/
inductive PanicError where
  | CodeInvariantError (msg : String)
  deriving DecidableEq, Repr

/-- `randomly_check_layout_matches`: the sampled `rng.gen_range(0, 100)`
value is passed in as `random_number`, making the sporadic equality check
explicit. -/
def randomly_check_layout_matches (random_number : Nat)
    (layout_1 layout_2 : Option Layout) : Except PanicError Unit :=
  if layout_1.isSome != layout_2.isSome then
    .error (.CodeInvariantError "Layouts do not match when they are expected to")
  else if layout_1.isSome then
    if random_number == 1 && layout_1 != layout_2 then
      .error (.CodeInvariantError "Layouts do not match when they are expected to")
    else
      .ok ()
  else
    .ok ()

/-- `TResourceGroupView::get_resource_from_group` for
`ExecutorViewWithChangeSet`: overlay group hit returns the op's raw bytes
after the sporadic layout check; otherwise delegate to the base group
view. -/
def ExecutorViewWithChangeSet.get_resource_from_group
    (v : ExecutorViewWithChangeSet) (random_number : Nat)
    (group_key : StateKey) (resource_tag : Tag)
    (maybe_layout : Option Layout) : Except String (Option StateValue) :=
  match (v.change_set.resource_group_write_set.lookup group_key).bind
      (fun g => g.inner_ops.lookup resource_tag) with
  | some (write_op, layout) =>
      match randomly_check_layout_matches random_number maybe_layout layout with
      | .error _ => .error "get_resource_from_group layout check"
      | .ok () => .ok write_op.extract_raw_bytes
  | none =>
      v.base_executor_view.get_resource_from_group group_key resource_tag maybe_layout

/-! ## Gas meter and fee statements (aptos_vm.rs) -/

/-- The observable state of an `AptosGasMeter`: its remaining balance, the
per-category usage counters, and the outcome of
`algebra().check_consistency()` (already converted to a `VMStatus` via
`err.finish(Location::Undefined).into()`). -/
structure GasMeterModel where
  balance : Nat
  execution_gas_used : Nat
  io_gas_used : Nat
  storage_fee_used : Nat
  check_consistency : Except VMStatus Unit

/-- `u64::checked_sub`. -/
def checked_sub (a b : Nat) : Option Nat :=
  if b ≤ a then some (a - b) else none

/-- `AptosVM::fee_statement_from_gas_meter`; `none` models the `expect`
panic when the balance exceeds the transaction's max gas amount. -/
def fee_statement_from_gas_meter (max_gas_amount : Nat)
    (gas_meter : GasMeterModel) (storage_fee_refund : Nat) :
    Option FeeStatement :=
  match checked_sub max_gas_amount gas_meter.balance with
  | none => none
  | some gas_used =>
      some ⟨gas_used, gas_meter.execution_gas_used, gas_meter.io_gas_used,
        gas_meter.storage_fee_used, storage_fee_refund⟩

/-! ## Success and failure transaction cleanup (aptos_vm.rs) -/

/-- The part of `AptosVM::success_transaction_cleanup` after the
consistency check: build the fee statement, run the success epilogue inside
the respawned session (`run_success_epilogue` is its outcome), finish the
respawned session (`finish_result` is the outcome of
`respawned_session.finish(change_set_configs)`), assemble the output. The
outer `Option` models the `expect` panic inside
`fee_statement_from_gas_meter`. -/
def success_transaction_cleanup_rest (max_gas_amount : Nat)
    (gas_meter : GasMeterModel) (storage_fee_refund : Nat)
    (run_success_epilogue : Except VMStatus Unit)
    (finish_result : Except VMStatus VMChangeSet) :
    Option (Except VMStatus (VMStatus × VMOutput)) :=
  match fee_statement_from_gas_meter max_gas_amount gas_meter storage_fee_refund with
  | none => none
  | some fee_statement =>
      some (do
        let _ ← run_success_epilogue
        let change_set ← finish_result
        .ok (VMStatus.Executed,
          VMOutput.mk change_set fee_statement (.Keep .Success)))

/-- `AptosVM::success_transaction_cleanup`: the `gas_feature_version ≥ 12`
consistency check, which fails the transaction on an inconsistent meter,
followed by `success_transaction_cleanup_rest`. -/
def success_transaction_cleanup (gas_feature_version : Nat)
    (gas_meter : GasMeterModel) (max_gas_amount : Nat)
    (storage_fee_refund : Nat)
    (run_success_epilogue : Except VMStatus Unit)
    (finish_result : Except VMStatus VMChangeSet) :
    Option (Except VMStatus (VMStatus × VMOutput)) :=
  if gas_feature_version ≥ 12 then
    match gas_meter.check_consistency with
    | .error err => some (.error err)
    | .ok () =>
        success_transaction_cleanup_rest max_gas_amount gas_meter
          storage_fee_refund run_success_epilogue finish_result
  else
    success_transaction_cleanup_rest max_gas_amount gas_meter
      storage_fee_refund run_success_epilogue finish_result

/-- `AptosVM::failed_transaction_cleanup_and_keep_vm_status`. The
`gas_feature_version ≥ 12` consistency check only logs, so the
`check_consistency` field of the meter is received but not consumed beyond
that logging. External pieces appear as arguments: `from_vm_status` is
`TransactionStatus::from_vm_status`, `extract_abort_info` reads registered
abort metadata for a module and code, `run_failure_epilogue` is the outcome
of the failure-epilogue Move call, `get_transaction_output` finalizes the
epilogue session. `none` models the panics (`expect` on the fee statement,
`unreachable!` on `Retry`). -/
def failed_transaction_cleanup_and_keep_vm_status
    (gas_feature_version : Nat) (error_code : VMStatus)
    (gas_meter : GasMeterModel) (max_gas_amount : Nat)
    (charge_invariant_violation : Bool)
    (from_vm_status : VMStatus → Bool → TransactionStatus)
    (extract_abort_info : Nat → Nat → Option String)
    (run_failure_epilogue : Except VMStatus Unit)
    (get_transaction_output : FeeStatement → ExecutionStatus → Except VMStatus VMOutput) :
    Option (VMStatus × VMOutput) :=
  -- Since we are already in the failure epilogue, a failing consistency
  -- check is only logged (printed); it does not influence the result.
  let _logged : Option VMStatus :=
    if gas_feature_version ≥ 12 then
      match gas_meter.check_consistency with
      | .error err => some err
      | .ok () => none
    else none
  match fee_statement_from_gas_meter max_gas_amount gas_meter 0 with
  | none => none
  | some fee_statement =>
      match from_vm_status error_code charge_invariant_violation with
      | .Keep status =>
          let status :=
            match status with
            | .MoveAbort (.Module module) code _ =>
                .MoveAbort (.Module module) code (extract_abort_info module code)
            | s => s
          match run_failure_epilogue with
          | .error e => some (discard_error_vm_status e)
          | .ok () =>
              let txn_output :=
                match get_transaction_output fee_statement status with
                | .ok o => o
                | .error e => (discard_error_vm_status e).2
              some (error_code, txn_output)
      | .Discard status => some (discard_error_vm_status (.Error status none))
      | .Retry => none

/-! ## Transaction validation (aptos_vm.rs, VMValidator impl) -/

/-- `aptos_types::vm_status::VMValidatorResult`:
`VMValidatorResult::new(status, score)`. -/
structure VMValidatorResult where
  status : Option StatusCode
  score : Nat
  deriving DecidableEq, Repr

/-- `AptosVM::validate_transaction`. External pieces as arguments:
`single_sender_enabled` is the `SINGLE_SENDER_AUTHENTICATOR` feature flag,
`auth_is_single_sender` whether the transaction's authenticator is
`SingleSender`, `signature_ok` the outcome of `check_signature()`,
`gas_unit_price` the transaction's gas price, and `validate_signed` the
outcome of `validate_signed_transaction` (duplicate-signer check plus the
prologue). -/
def validate_transaction (single_sender_enabled : Bool)
    (auth_is_single_sender : Bool) (signature_ok : Bool)
    (gas_unit_price : Nat) (validate_signed : Except VMStatus Unit) :
    VMValidatorResult :=
  if !single_sender_enabled && auth_is_single_sender then
    ⟨some .FEATURE_UNDER_GATING, 0⟩
  else if !signature_ok then
    ⟨some .INVALID_SIGNATURE, 0⟩
  else
    match validate_signed with
    | .error err =>
        if err.status_code ≠ .SEQUENCE_NUMBER_TOO_NEW then
          ⟨some err.status_code, 0⟩
        else
          ⟨none, gas_unit_price⟩
    | .ok () => ⟨none, gas_unit_price⟩

/-! ## Epoch-change restart check (aptos_vm.rs) -/

/-- Modelled from the spec: the distinguished new-epoch event key produced
by `aptos_types::on_chain_config::new_epoch_event_key()`, which is not under
`src/`; it is a fixed well-known key. -/
def new_epoch_event_key : EventKey := 2

/-- `AptosVM::should_restart_execution`: true iff some event in the output's
change set carries the new-epoch event key. -/
def should_restart_execution (vm_output : VMOutput) : Bool :=
  vm_output.change_set.events.any
    (fun ev => ev.1.event_key == some new_epoch_event_key)

/-! ## Single-transaction entry (aptos_vm.rs) -/

/-- The inner transaction of a `SignatureVerifiedTransaction`, abstracted:
the claims about `execute_single_transaction` only distinguish the
`Invalid` wrapper. -/
abbrev TransactionModel := Nat

/-- `aptos_types::block_executor::SignatureVerifiedTransaction`. -/
inductive SignatureVerifiedTransaction where
  | Valid (txn : TransactionModel)
  | Invalid (txn : TransactionModel)
  deriving DecidableEq, Repr

/-- `AptosVM::execute_single_transaction`. The dispatch over valid
transaction variants (block metadata, genesis, user, state checkpoint,
validator transaction) is the oracle `handle_valid`; an `Invalid`
transaction is discarded with `INVALID_SIGNATURE` before any of it runs. -/
def execute_single_transaction
    (handle_valid : TransactionModel → Except VMStatus (VMStatus × VMOutput × Option String))
    (txn : SignatureVerifiedTransaction) :
    Except VMStatus (VMStatus × VMOutput × Option String) :=
  match txn with
  | .Invalid _ =>
      let (vm_status, output) :=
        discard_error_vm_status (.Error .INVALID_SIGNATURE none)
      .ok (vm_status, output, none)
  | .Valid t => handle_valid t

/-! ## Multisig failure cleanup (aptos_vm.rs) -/

/-- A serialized `ExecutionError`, abstracted (produced by
`ExecutionError::try_from` on the inner failure). -/
abbrev ExecutionErrorModel := Nat

/-- One invocation of `session.execute_function_bypass_visibility`: the
target module and function, type arguments, serialized arguments, and
whether the gas meter passed was `UnmeteredGasMeter`. -/
structure MoveCall where
  module : String
  function : String
  ty_args : List Nat
  args : List Nat
  unmetered : Bool
  deriving DecidableEq, Repr

/-- A respawned session as produced by the multisig cleanup paths: the
change set the overlay was spawned on, the storage refund passed to
`spawn`, and the Move calls executed inside the session so far. -/
structure RespawnedSessionModel where
  overlay_change_set : VMChangeSet
  storage_refund : Nat
  executed_calls : List MoveCall
  deriving DecidableEq, Repr

/-- `AptosVM::failure_multisig_payload_cleanup`: spawn a fresh respawned
session on an empty change set with zero refund, convert the inner failure
to an `ExecutionError` (`try_from_execution_error`, `none` modelling the
`UNREACHABLE` failure), BCS-serialize it (`bcs_to_bytes`, `none` modelling
serialization failure), append it to the cleanup arguments and call
`multisig_account::failed_transaction_execution_cleanup` unmetered
(`execute_cleanup` is the outcome of that Move call). -/
def failure_multisig_payload_cleanup (execution_error : VMStatus)
    (cleanup_args : List Nat)
    (try_from_execution_error : VMStatus → Option ExecutionErrorModel)
    (bcs_to_bytes : ExecutionErrorModel → Option Nat)
    (execute_cleanup : MoveCall → Except VMStatus Unit) :
    Except VMStatus RespawnedSessionModel :=
  -- RespawnedSession::spawn(self, epilogue_meta, resolver, VMChangeSet::empty(), 0)
  let respawned_session : RespawnedSessionModel := ⟨VMChangeSet.empty, 0, []⟩
  match try_from_execution_error execution_error with
  | none => .error (.Error .UNREACHABLE none)
  | some execution_error_converted =>
      match bcs_to_bytes execution_error_converted with
      | none =>
          .error (.Error .UNKNOWN_INVARIANT_VIOLATION_ERROR
            (some "MultiSig payload cleanup error."))
      | some serialized_error =>
          let call : MoveCall :=
            ⟨"multisig_account", "failed_transaction_execution_cleanup", [],
              cleanup_args ++ [serialized_error], true⟩
          match execute_cleanup call with
          | .error e => .error e
          | .ok () =>
              .ok { respawned_session with
                      executed_calls := respawned_session.executed_calls ++ [call] }

/-- The step-3 dispatch of `AptosVM::execute_multisig_transaction` (lines
760–784): on an inner failure, invalidate the loader cache iff newly
published modules had been loaded and run the failure cleanup; on success,
run the success cleanup (`success_cleanup` oracle). Returns whether
`mark_loader_cache_as_invalid` was called, paired with the resulting
respawned session. -/
def multisig_cleanup_dispatch (execution_result : Except VMStatus Unit)
    (new_published_modules_loaded : Bool) (cleanup_args : List Nat)
    (try_from_execution_error : VMStatus → Option ExecutionErrorModel)
    (bcs_to_bytes : ExecutionErrorModel → Option Nat)
    (execute_cleanup : MoveCall → Except VMStatus Unit)
    (success_cleanup : Except VMStatus RespawnedSessionModel) :
    Except VMStatus (Bool × RespawnedSessionModel) :=
  match execution_result with
  | .error execution_error =>
      match failure_multisig_payload_cleanup execution_error cleanup_args
          try_from_execution_error bcs_to_bytes execute_cleanup with
      | .error e => .error e
      | .ok respawned_session => .ok (new_published_modules_loaded, respawned_session)
  | .ok () =>
      match success_cleanup with
      | .error e => .error e
      | .ok respawned_session => .ok (false, respawned_session)

/-! ## Publish validation (aptos_vm.rs) -/

/-- A `VMError` as built by the publish-validation path: a status code plus
an optional message. -/
structure VMErrorModel where
  code : StatusCode
  msg : Option String
  deriving DecidableEq, Repr

/-- `AptosVM::metadata_validation_error`. -/
def metadata_validation_error (msg : String) : VMErrorModel :=
  ⟨.CONSTRAINT_NOT_SATISFIED, some ("metadata and code bundle mismatch: " ++ msg)⟩

/-- A `CompiledModule`, restricted to what `validate_publish_request`
reads: its address, its short name, and its immediate dependencies as
(address, name) pairs. -/
structure CompiledModuleModel where
  address : Nat
  name : String
  immediate_dependencies : List (Nat × String)
  deriving DecidableEq, Repr

/-- The per-dependency test of `validate_publish_request`: the dependency's
address has an entry in `allowed_deps` containing either the wildcard `""`
or the dependency's name. -/
def dep_allowed (allowed : List (Nat × List String)) (dep : Nat × String) : Bool :=
  match allowed.lookup dep.1 with
  | some modules => modules.contains "" || modules.contains dep.2
  | none => false

/-- The inner `for dep in m.immediate_dependencies()` check of
`validate_publish_request`, for one module: when `allowed_deps` is
provided, every immediate dependency must be allowed; otherwise the check
is skipped. -/
def module_deps_allowed (allowed_deps : Option (List (Nat × List String)))
    (m : CompiledModuleModel) : Bool :=
  match allowed_deps with
  | some allowed => m.immediate_dependencies.all (dep_allowed allowed)
  | none => true

/-- The per-module loop of `validate_publish_request`: remove each module's
short name from `expected_modules`, check its immediate dependencies
against `allowed_deps` when provided, and run the framework metadata
validator (`verify_module_metadata`, an oracle returning `some errmsg` on
failure). Returns the remaining expected modules. `expected_modules` is the
`BTreeSet<String>` as a duplicate-free list. -/
def validate_publish_modules_loop
    (allowed_deps : Option (List (Nat × List String)))
    (verify_module_metadata : CompiledModuleModel → Option String) :
    List CompiledModuleModel → List String → Except VMErrorModel (List String)
  | [], expected_modules => .ok expected_modules
  | m :: rest, expected_modules =>
      if expected_modules.contains m.name then
        if module_deps_allowed allowed_deps m then
          match verify_module_metadata m with
          | some err => .error (metadata_validation_error err)
          | none =>
              validate_publish_modules_loop allowed_deps
                verify_module_metadata rest (expected_modules.erase m.name)
        else
          .error (metadata_validation_error "unregistered dependency")
      else
        .error (metadata_validation_error "unregistered module")

/-- `AptosVM::validate_publish_request`: the per-module loop, then the
resource-group validator and the event validator (oracles over the session,
passed as outcomes), then the leftover-expected-modules check. -/
def validate_publish_request (modules : List CompiledModuleModel)
    (expected_modules : List String)
    (allowed_deps : Option (List (Nat × List String)))
    (verify_module_metadata : CompiledModuleModel → Option String)
    (validate_resource_groups : Except VMErrorModel Unit)
    (validate_module_events : Except VMErrorModel Unit) :
    Except VMErrorModel Unit :=
  match validate_publish_modules_loop allowed_deps verify_module_metadata
      modules expected_modules with
  | .error e => .error e
  | .ok remaining =>
      match validate_resource_groups with
      | .error e => .error e
      | .ok () =>
          match validate_module_events with
          | .error e => .error e
          | .ok () =>
              if !remaining.isEmpty then
                .error (metadata_validation_error "not all registered modules published")
              else
                .ok ()

/-- The sequential-removal condition of the publish validation: every
module's short name is removable in order from `expected_modules`;
returns the leftover names. -/
def modules_consume_expected :
    List CompiledModuleModel → List String → Option (List String)
  | [], expected_modules => some expected_modules
  | m :: rest, expected_modules =>
      if expected_modules.contains m.name then
        modules_consume_expected rest (expected_modules.erase m.name)
      else
        none

/-- The fragment of `AptosVM::resolve_pending_code_publish` around the
validation call: `validate_publish_request` is run before
`publish_module_bundle_with_compat_config`, so a validation error
short-circuits (via `?`) and the bundle is never published. `published`
records whether the publish call was reached;
`publish_and_init` is the outcome of publishing plus module
initialization. -/
def resolve_publish_after_validation
    (validation_result : Except VMErrorModel Unit)
    (publish_and_init : Except VMErrorModel Unit) :
    Bool × Except VMErrorModel Unit :=
  match validation_result with
  | .error e => (false, .error e)
  | .ok () => (true, publish_and_init)

/-! ## Theorems -/

/-- C1: for every respawned session, `finish` finalizes the inner session
into an additional change set; if that additional change set contains any
`Creation` write op, `finish` fails with
`UNKNOWN_INVARIANT_VIOLATION_ERROR` and no combined change set is produced;
otherwise the additional change set is squashed onto the overlay's change
set and the combined change set is returned. -/
theorem respawned_session_finish_creation_guard
    (squash : VMChangeSet → VMChangeSet → Option VMChangeSet)
    (overlay : VMChangeSet) (refund : Nat) (acs : VMChangeSet) :
    (acs.has_creation = true →
      RespawnedSession.finish squash ⟨overlay, some (.ok acs), refund⟩ =
        .error (.Error .UNKNOWN_INVARIANT_VIOLATION_ERROR
          (some "Unexpected storage allocation after respawning session."))) ∧
    (acs.has_creation = false →
      ∀ combined, squash overlay acs = some combined →
        RespawnedSession.finish squash ⟨overlay, some (.ok acs), refund⟩ =
          .ok combined) := by
  constructor
  · intro h
    simp [RespawnedSession.finish, h]
  · intro h combined hsq
    simp [RespawnedSession.finish, h, hsq]

/-- Witness for C1: a concrete additional change set with a `Creation`
module write is rejected with `UNKNOWN_INVARIANT_VIOLATION_ERROR`. -/
theorem respawned_session_finish_creation_guard_witness :
    RespawnedSession.finish (fun a _ => some a)
        ⟨VMChangeSet.empty,
          some (.ok ⟨[], [], [(0, .Creation 7)], [], [], []⟩), 0⟩ =
      .error (.Error .UNKNOWN_INVARIANT_VIOLATION_ERROR
        (some "Unexpected storage allocation after respawning session.")) :=
  (respawned_session_finish_creation_guard (fun a _ => some a)
    VMChangeSet.empty 0 ⟨[], [], [(0, .Creation 7)], [], [], []⟩).1 (by decide)

/-- C3: every read through `ExecutorViewWithChangeSet` consults the
overlaid change set first and falls back to the base view: module reads
return the `module_write_set` entry's state value (`none` for a `Deletion`)
when present and otherwise delegate; resource reads return the
`resource_write_set` entry's state value when present and otherwise
delegate; aggregator v1 reads materialize a `aggregator_v1_delta_set`
entry against the base's current value when present, else return the
`aggregator_v1_write_set` entry's state value, else delegate. -/
theorem executor_view_overlay_reads (v : ExecutorViewWithChangeSet)
    (k : StateKey) (ml : Option Layout) :
    (∀ op, v.change_set.module_write_set.lookup k = some op →
      v.get_module_state_value k = .ok op.as_state_value) ∧
    (v.change_set.module_write_set.lookup k = none →
      v.get_module_state_value k =
        v.base_executor_view.get_module_state_value k) ∧
    (∀ op l, v.change_set.resource_write_set.lookup k = some (op, l) →
      v.get_resource_state_value k ml = .ok op.as_state_value) ∧
    (v.change_set.resource_write_set.lookup k = none →
      v.get_resource_state_value k ml =
        v.base_executor_view.get_resource_state_value k ml) ∧
    (∀ d, v.change_set.aggregator_v1_delta_set.lookup k = some d →
      v.get_aggregator_v1_state_value k =
        (v.base_executor_view.try_convert_aggregator_v1_delta_into_write_op
            k d).map WriteOp.as_state_value) ∧
    (∀ op, v.change_set.aggregator_v1_delta_set.lookup k = none →
      v.change_set.aggregator_v1_write_set.lookup k = some op →
      v.get_aggregator_v1_state_value k = .ok op.as_state_value) ∧
    (v.change_set.aggregator_v1_delta_set.lookup k = none →
      v.change_set.aggregator_v1_write_set.lookup k = none →
      v.get_aggregator_v1_state_value k =
        v.base_executor_view.get_aggregator_v1_state_value k) ∧
    WriteOp.Deletion.as_state_value = none := by
  refine ⟨?_, ?_, ?_, ?_, ?_, ?_, ?_, rfl⟩
  · intro op h
    simp [ExecutorViewWithChangeSet.get_module_state_value, h]
  · intro h
    simp [ExecutorViewWithChangeSet.get_module_state_value, h]
  · intro op l h
    simp [ExecutorViewWithChangeSet.get_resource_state_value, h]
  · intro h
    simp [ExecutorViewWithChangeSet.get_resource_state_value, h]
  · intro d h
    simp only [ExecutorViewWithChangeSet.get_aggregator_v1_state_value, h]
    cases v.base_executor_view.try_convert_aggregator_v1_delta_into_write_op k d <;>
      simp [Except.map]
  · intro op h₁ h₂
    simp [ExecutorViewWithChangeSet.get_aggregator_v1_state_value, h₁, h₂]
  · intro h₁ h₂
    simp [ExecutorViewWithChangeSet.get_aggregator_v1_state_value, h₁, h₂]

/-- Witness for C3: on a concrete overlay with a module write at key 0, a
module read at key 0 returns the overlaid value. -/
theorem executor_view_overlay_reads_witness :
    (ExecutorViewWithChangeSet.mk
        ⟨fun _ => .ok none, fun _ _ => .ok none, fun _ => .ok none,
          fun _ _ => .ok .Deletion, fun _ _ _ => .ok none⟩
        ⟨[], [], [(0, .Modification 5)], [], [], []⟩).get_module_state_value 0 =
      .ok (some 5) :=
  (executor_view_overlay_reads
    (ExecutorViewWithChangeSet.mk
      ⟨fun _ => .ok none, fun _ _ => .ok none, fun _ => .ok none,
        fun _ _ => .ok .Deletion, fun _ _ _ => .ok none⟩
      ⟨[], [], [(0, .Modification 5)], [], [], []⟩) 0 none).1
    (.Modification 5) rfl

/-- C6: whenever a fee statement is produced, its `gas_used` equals the
transaction's `max_gas_amount` minus the gas meter's remaining balance,
`gas_used` is at most `max_gas_amount`, and the balance did not exceed
`max_gas_amount`. -/
theorem fee_statement_gas_used_spec (max_gas_amount : Nat)
    (gas_meter : GasMeterModel) (storage_fee_refund : Nat)
    (fee : FeeStatement)
    (h : fee_statement_from_gas_meter max_gas_amount gas_meter
        storage_fee_refund = some fee) :
    fee.gas_used = max_gas_amount - gas_meter.balance ∧
      fee.gas_used ≤ max_gas_amount ∧
      gas_meter.balance ≤ max_gas_amount := by
  revert h
  simp only [fee_statement_from_gas_meter, checked_sub]
  split
  · intro h
    exact Option.noConfusion h
  · rename_i gas_used heq
    intro h
    cases h
    split at heq
    · rename_i hle
      cases heq
      exact ⟨rfl, Nat.sub_le _ _, hle⟩
    · exact Option.noConfusion heq

/-- Witness for C6: a meter with balance 30 against max gas 100 yields
`gas_used = 70 ≤ 100`. -/
theorem fee_statement_gas_used_spec_witness :
    (⟨70, 1, 2, 3, 4⟩ : FeeStatement).gas_used = 100 - 30 ∧
      (⟨70, 1, 2, 3, 4⟩ : FeeStatement).gas_used ≤ 100 ∧ 30 ≤ 100 :=
  fee_statement_gas_used_spec 100 ⟨30, 1, 2, 3, .ok ()⟩ 4 ⟨70, 1, 2, 3, 4⟩ rfl

/-- C9: for every `SignatureVerifiedTransaction::Invalid` input,
`execute_single_transaction` returns `Ok` with VM status
`INVALID_SIGNATURE`, an empty output discarded with `INVALID_SIGNATURE`,
and no sender label, independently of the valid-transaction pipeline. -/
theorem execute_single_transaction_invalid_signature
    (handle₁ handle₂ :
      TransactionModel → Except VMStatus (VMStatus × VMOutput × Option String))
    (t : TransactionModel) :
    execute_single_transaction handle₁ (.Invalid t) =
      .ok (VMStatus.Error .INVALID_SIGNATURE none,
        VMOutput.empty_with_status (.Discard .INVALID_SIGNATURE), none) ∧
    execute_single_transaction handle₁ (.Invalid t) =
      execute_single_transaction handle₂ (.Invalid t) :=
  ⟨rfl, rfl⟩

/-- C10: `randomly_check_layout_matches` errors whenever exactly one of
the layouts is present, succeeds when both are absent, and when both are
present the equality check is only probabilistic: two present unequal
layouts may pass. -/
theorem randomly_check_layout_matches_spec :
    (∀ (r : Nat) (l₁ l₂ : Option Layout), l₁.isSome ≠ l₂.isSome →
      randomly_check_layout_matches r l₁ l₂ =
        .error (.CodeInvariantError
          "Layouts do not match when they are expected to")) ∧
    (∀ r : Nat, randomly_check_layout_matches r none none = .ok ()) ∧
    (∃ (r : Nat) (l₁ l₂ : Option Layout),
      l₁.isSome ∧ l₂.isSome ∧ l₁ ≠ l₂ ∧
        randomly_check_layout_matches r l₁ l₂ = .ok ()) := by
  refine ⟨?_, ?_, 0, some 0, some 1, by decide, by decide, by decide, rfl⟩
  · intro r l₁ l₂ h
    simp [randomly_check_layout_matches, bne_iff_ne, h]
  · intro r
    simp [randomly_check_layout_matches]

/-- Witness for C10: one present and one absent layout is rejected. -/
theorem randomly_check_layout_matches_spec_witness :
    randomly_check_layout_matches 7 (some 0) none =
      .error (.CodeInvariantError
        "Layouts do not match when they are expected to") :=
  randomly_check_layout_matches_spec.1 7 (some 0) none (by decide)

/-- C2: at `gas_feature_version ≥ 12`, a failing gas-meter consistency
check makes `success_transaction_cleanup` return an error, while in
`failed_transaction_cleanup_and_keep_vm_status` the check result is only
logged and the produced (status, output) does not depend on it. -/
theorem gas_meter_consistency_check_fatality :
    (∀ (gas_feature_version : Nat) (gas_meter : GasMeterModel)
        (max_gas_amount storage_fee_refund : Nat)
        (run_success_epilogue : Except VMStatus Unit)
        (finish_result : Except VMStatus VMChangeSet) (err : VMStatus),
      gas_feature_version ≥ 12 →
      gas_meter.check_consistency = .error err →
      success_transaction_cleanup gas_feature_version gas_meter
          max_gas_amount storage_fee_refund run_success_epilogue
          finish_result = some (.error err)) ∧
    (∀ (gas_feature_version : Nat) (error_code : VMStatus)
        (gas_meter : GasMeterModel) (check₁ check₂ : Except VMStatus Unit)
        (max_gas_amount : Nat) (charge_invariant_violation : Bool)
        (from_vm_status : VMStatus → Bool → TransactionStatus)
        (extract_abort_info : Nat → Nat → Option String)
        (run_failure_epilogue : Except VMStatus Unit)
        (get_transaction_output :
          FeeStatement → ExecutionStatus → Except VMStatus VMOutput),
      failed_transaction_cleanup_and_keep_vm_status gas_feature_version
          error_code { gas_meter with check_consistency := check₁ }
          max_gas_amount charge_invariant_violation from_vm_status
          extract_abort_info run_failure_epilogue get_transaction_output =
        failed_transaction_cleanup_and_keep_vm_status gas_feature_version
          error_code { gas_meter with check_consistency := check₂ }
          max_gas_amount charge_invariant_violation from_vm_status
          extract_abort_info run_failure_epilogue get_transaction_output) := by
  constructor
  · intro gas_feature_version gas_meter max_gas_amount storage_fee_refund
      run_success_epilogue finish_result err hge hcheck
    simp [success_transaction_cleanup, hge, hcheck]
  · intro gas_feature_version error_code gas_meter check₁ check₂
      max_gas_amount charge_invariant_violation from_vm_status
      extract_abort_info run_failure_epilogue get_transaction_output
    simp [failed_transaction_cleanup_and_keep_vm_status,
      fee_statement_from_gas_meter]

/-- Witness for C2: at gas feature version 12 an inconsistent meter fails
the success cleanup, and a concrete failure cleanup is unchanged by the
consistency-check outcome. -/
theorem gas_meter_consistency_check_fatality_witness :
    success_transaction_cleanup 12
        ⟨0, 0, 0, 0, .error (.Error (.other 9) none)⟩ 10 0 (.ok ())
        (.ok VMChangeSet.empty) =
      some (.error (.Error (.other 9) none)) :=
  gas_meter_consistency_check_fatality.1 12
    ⟨0, 0, 0, 0, .error (.Error (.other 9) none)⟩ 10 0 (.ok ())
    (.ok VMChangeSet.empty) (.Error (.other 9) none) (by decide) rfl

/-- C4: a multisig transaction whose inner payload execution fails discards
the inner session, respawns on an empty change set with zero storage
refund, appends the serialized `ExecutionError` to the cleanup arguments,
invokes `multisig_account::failed_transaction_execution_cleanup` exactly
once with an unmetered gas meter, and invalidates the loader cache iff
newly published modules had been loaded. -/
theorem multisig_failure_cleanup_spec (execution_error : VMStatus)
    (new_published_modules_loaded : Bool) (cleanup_args : List Nat)
    (try_from_execution_error : VMStatus → Option ExecutionErrorModel)
    (bcs_to_bytes : ExecutionErrorModel → Option Nat)
    (execute_cleanup : MoveCall → Except VMStatus Unit)
    (success_cleanup : Except VMStatus RespawnedSessionModel)
    (execution_error_converted : ExecutionErrorModel) (serialized_error : Nat)
    (h₁ : try_from_execution_error execution_error = some execution_error_converted)
    (h₂ : bcs_to_bytes execution_error_converted = some serialized_error)
    (h₃ : execute_cleanup
        ⟨"multisig_account", "failed_transaction_execution_cleanup", [],
          cleanup_args ++ [serialized_error], true⟩ = .ok ()) :
    multisig_cleanup_dispatch (.error execution_error)
        new_published_modules_loaded cleanup_args try_from_execution_error
        bcs_to_bytes execute_cleanup success_cleanup =
      .ok (new_published_modules_loaded,
        ⟨VMChangeSet.empty, 0,
          [⟨"multisig_account", "failed_transaction_execution_cleanup", [],
            cleanup_args ++ [serialized_error], true⟩]⟩) := by
  simp [multisig_cleanup_dispatch, failure_multisig_payload_cleanup, h₁, h₂, h₃]

/-- Witness for C4: a concrete failed inner execution produces exactly one
unmetered cleanup call on an empty-change-set respawn with the serialized
error appended, and the loader cache is invalidated. -/
theorem multisig_failure_cleanup_spec_witness :
    multisig_cleanup_dispatch (.error (.Error (.other 1) none)) true [4, 5]
        (fun _ => some 8) (fun e => some e) (fun _ => .ok ())
        (.error (.Error .UNREACHABLE none)) =
      .ok (true,
        ⟨VMChangeSet.empty, 0,
          [⟨"multisig_account", "failed_transaction_execution_cleanup", [],
            [4, 5, 8], true⟩]⟩) :=
  multisig_failure_cleanup_spec (.Error (.other 1) none) true [4, 5]
    (fun _ => some 8) (fun e => some e) (fun _ => .ok ())
    (.error (.Error .UNREACHABLE none)) 8 8 rfl rfl rfl

/-- C7: `validate_transaction` accepts (no status code, the transaction's
gas unit price) whenever the prologue succeeds or fails with exactly
`SEQUENCE_NUMBER_TOO_NEW`, and returns the failure's status code with gas
price 0 for every other prologue failure. -/
theorem validate_transaction_prologue_outcomes (single_sender_enabled : Bool)
    (auth_is_single_sender : Bool) (gas_unit_price : Nat)
    (validate_signed : Except VMStatus Unit)
    (hgate : ¬(single_sender_enabled = false ∧ auth_is_single_sender = true)) :
    (validate_signed = .ok () →
      validate_transaction single_sender_enabled auth_is_single_sender true
          gas_unit_price validate_signed = ⟨none, gas_unit_price⟩) ∧
    (∀ err, validate_signed = .error err →
      err.status_code = .SEQUENCE_NUMBER_TOO_NEW →
      validate_transaction single_sender_enabled auth_is_single_sender true
          gas_unit_price validate_signed = ⟨none, gas_unit_price⟩) ∧
    (∀ err, validate_signed = .error err →
      err.status_code ≠ .SEQUENCE_NUMBER_TOO_NEW →
      validate_transaction single_sender_enabled auth_is_single_sender true
          gas_unit_price validate_signed = ⟨some err.status_code, 0⟩) := by
  have hgate' : (!single_sender_enabled && auth_is_single_sender) = false := by
    cases single_sender_enabled <;> cases auth_is_single_sender <;>
      simp_all
  refine ⟨?_, ?_, ?_⟩
  · intro h
    simp [validate_transaction, hgate', h]
  · intro err h hseq
    simp [validate_transaction, hgate', h, hseq]
  · intro err h hseq
    simp [validate_transaction, hgate', h, hseq]

/-- Witness for C7: a prologue failure with `SEQUENCE_NUMBER_TOO_NEW` is
accepted with the transaction's gas price. -/
theorem validate_transaction_prologue_outcomes_witness :
    validate_transaction true false true 11
        (.error (.Error .SEQUENCE_NUMBER_TOO_NEW none)) = ⟨none, 11⟩ :=
  (validate_transaction_prologue_outcomes true false 11
      (.error (.Error .SEQUENCE_NUMBER_TOO_NEW none)) (by simp)).2.1
    (.Error .SEQUENCE_NUMBER_TOO_NEW none) rfl rfl

/-- C8: `should_restart_execution` returns true iff some event in the
output's change set carries the new-epoch event key; in particular every
`Keep(Success)` output containing a new-epoch event triggers a restart. -/
theorem should_restart_execution_new_epoch (vm_output : VMOutput) :
    (should_restart_execution vm_output = true ↔
      ∃ ev layout, (ev, layout) ∈ vm_output.change_set.events ∧
        ev.event_key = some new_epoch_event_key) ∧
    (∀ ev layout, vm_output.status = .Keep .Success →
      (ev, layout) ∈ vm_output.change_set.events →
      ev.event_key = some new_epoch_event_key →
      should_restart_execution vm_output = true) := by
  constructor
  · simp only [should_restart_execution, List.any_eq_true, beq_iff_eq]
    constructor
    · rintro ⟨⟨ev, layout⟩, hmem, hkey⟩
      exact ⟨ev, layout, hmem, hkey⟩
    · rintro ⟨ev, layout, hmem, hkey⟩
      exact ⟨⟨ev, layout⟩, hmem, hkey⟩
  · intro ev layout _ hmem hkey
    simp only [should_restart_execution, List.any_eq_true, beq_iff_eq]
    exact ⟨⟨ev, layout⟩, hmem, hkey⟩

/-- Witness for C8: a `Keep(Success)` output with a new-epoch event at the
distinguished key restarts execution. -/
theorem should_restart_execution_new_epoch_witness :
    should_restart_execution
        ⟨⟨[], [], [], [], [], [(.V1 new_epoch_event_key 0, none)]⟩,
          FeeStatement.zero, .Keep .Success⟩ = true :=
  (should_restart_execution_new_epoch
      ⟨⟨[], [], [], [], [], [(.V1 new_epoch_event_key 0, none)]⟩,
        FeeStatement.zero, .Keep .Success⟩).2
    (.V1 new_epoch_event_key 0) none rfl (by simp) rfl

/-- The per-module loop succeeds with remainder `remaining` iff the module
names are sequentially removable from the expected set leaving
`remaining`, every module's dependencies are allowed, and every module
passes the metadata validator. -/
theorem validate_publish_modules_loop_ok
    (allowed_deps : Option (List (Nat × List String)))
    (verify_module_metadata : CompiledModuleModel → Option String) :
    ∀ (modules : List CompiledModuleModel) (expected remaining : List String),
      validate_publish_modules_loop allowed_deps verify_module_metadata
          modules expected = .ok remaining ↔
        (modules_consume_expected modules expected = some remaining ∧
          ∀ m ∈ modules, module_deps_allowed allowed_deps m = true ∧
            verify_module_metadata m = none) := by
  intro modules
  induction modules with
  | nil =>
      intro expected remaining
      simp [validate_publish_modules_loop, modules_consume_expected]
  | cons m rest ih =>
      intro expected remaining
      by_cases hc : expected.contains m.name
      · by_cases hd : module_deps_allowed allowed_deps m
        · cases hv : verify_module_metadata m with
          | some err =>
              simp only [validate_publish_modules_loop, modules_consume_expected,
                hc, hd, hv, if_true, reduceCtorEq, false_iff, not_and]
              intro _ hall
              have := (hall m (List.mem_cons_self m rest)).2
              simp [hv] at this
          | none =>
              simp only [validate_publish_modules_loop, modules_consume_expected,
                hc, hd, hv, if_true]
              rw [ih]
              constructor
              · rintro ⟨hcons, hall⟩
                refine ⟨hcons, ?_⟩
                intro m' hm'
                rcases List.mem_cons.mp hm' with h | h
                · subst h; exact ⟨hd, hv⟩
                · exact hall m' h
              · rintro ⟨hcons, hall⟩
                exact ⟨hcons, fun m' hm' => hall m' (List.mem_cons_of_mem m hm')⟩
        · simp only [validate_publish_modules_loop, modules_consume_expected,
            hc, hd, if_true, if_false, reduceCtorEq, false_iff, not_and]
          intro _ hall
          have := (hall m (List.mem_cons_self m rest)).1
          simp [hd] at this
      · simp only [validate_publish_modules_loop, modules_consume_expected, hc,
          if_false, reduceCtorEq, false_iff, not_and]
        intro hcons
        simp [hc] at hcons

/-- Every error produced by the per-module loop carries
`CONSTRAINT_NOT_SATISFIED` (all its failures go through
`metadata_validation_error`). -/
theorem validate_publish_modules_loop_error_code
    (allowed_deps : Option (List (Nat × List String)))
    (verify_module_metadata : CompiledModuleModel → Option String) :
    ∀ (modules : List CompiledModuleModel) (expected : List String)
      (e : VMErrorModel),
      validate_publish_modules_loop allowed_deps verify_module_metadata
          modules expected = .error e →
      e.code = .CONSTRAINT_NOT_SATISFIED := by
  intro modules
  induction modules with
  | nil =>
      intro expected e h
      simp [validate_publish_modules_loop] at h
  | cons m rest ih =>
      intro expected e h
      by_cases hc : expected.contains m.name
      · by_cases hd : module_deps_allowed allowed_deps m
        · cases hv : verify_module_metadata m with
          | some err =>
              simp only [validate_publish_modules_loop, hc, hd, hv, if_true] at h
              cases h
              rfl
          | none =>
              simp only [validate_publish_modules_loop, hc, hd, hv, if_true] at h
              exact ih _ e h
        · simp only [validate_publish_modules_loop, hc, hd, if_true, if_false] at h
          cases h
          rfl
      · simp only [validate_publish_modules_loop, hc, if_false] at h
        cases h
        rfl

/-- C5: `validate_publish_request` succeeds iff every module's short name
is removable from `expected_modules`, every immediate dependency of every
module is allowed by `allowed_deps` when provided, the framework metadata,
resource-group and event validators pass, and `expected_modules` is fully
consumed; name, dependency, metadata and leftover violations yield a
`CONSTRAINT_NOT_SATISFIED` error; and on any validation error the bundle
is never published. -/
theorem validate_publish_request_spec (modules : List CompiledModuleModel)
    (expected_modules : List String)
    (allowed_deps : Option (List (Nat × List String)))
    (verify_module_metadata : CompiledModuleModel → Option String)
    (validate_resource_groups : Except VMErrorModel Unit)
    (validate_module_events : Except VMErrorModel Unit) :
    (validate_publish_request modules expected_modules allowed_deps
        verify_module_metadata validate_resource_groups
        validate_module_events = .ok () ↔
      (modules_consume_expected modules expected_modules = some [] ∧
        (∀ m ∈ modules, module_deps_allowed allowed_deps m = true) ∧
        (∀ m ∈ modules, verify_module_metadata m = none) ∧
        validate_resource_groups = .ok () ∧
        validate_module_events = .ok ())) ∧
    (∀ e, validate_resource_groups = .ok () →
      validate_module_events = .ok () →
      validate_publish_request modules expected_modules allowed_deps
          verify_module_metadata validate_resource_groups
          validate_module_events = .error e →
      e.code = .CONSTRAINT_NOT_SATISFIED) ∧
    (∀ e publish_and_init,
      validate_publish_request modules expected_modules allowed_deps
          verify_module_metadata validate_resource_groups
          validate_module_events = .error e →
      (resolve_publish_after_validation
          (validate_publish_request modules expected_modules allowed_deps
            verify_module_metadata validate_resource_groups
            validate_module_events)
          publish_and_init).1 = false) := by
  refine ⟨?_, ?_, ?_⟩
  · constructor
    · intro hok
      unfold validate_publish_request at hok
      cases hloop : validate_publish_modules_loop allowed_deps
          verify_module_metadata modules expected_modules with
      | error e =>
          rw [hloop] at hok
          exact Except.noConfusion hok
      | ok remaining =>
          rw [hloop] at hok
          cases hrg : validate_resource_groups with
          | error e =>
              rw [hrg] at hok
              exact Except.noConfusion hok
          | ok u =>
              cases u
              rw [hrg] at hok
              cases hev : validate_module_events with
              | error e =>
                  rw [hev] at hok
                  exact Except.noConfusion hok
              | ok u =>
                  cases u
                  rw [hev] at hok
                  cases remaining with
                  | cons a as => simp at hok
                  | nil =>
                      have hchar := (validate_publish_modules_loop_ok
                        allowed_deps verify_module_metadata modules
                        expected_modules []).mp hloop
                      exact ⟨hchar.1, fun m hm => (hchar.2 m hm).1,
                        fun m hm => (hchar.2 m hm).2, rfl, rfl⟩
    · rintro ⟨hcons, hdeps, hmeta, hrg, hev⟩
      unfold validate_publish_request
      rw [(validate_publish_modules_loop_ok allowed_deps
          verify_module_metadata modules expected_modules []).mpr
          ⟨hcons, fun m hm => ⟨hdeps m hm, hmeta m hm⟩⟩, hrg, hev]
      rfl
  · intro e hrg hev h
    unfold validate_publish_request at h
    cases hloop : validate_publish_modules_loop allowed_deps
        verify_module_metadata modules expected_modules with
    | error e₀ =>
        rw [hloop] at h
        cases h
        exact validate_publish_modules_loop_error_code allowed_deps
          verify_module_metadata modules expected_modules e hloop
    | ok remaining =>
        rw [hloop, hrg, hev] at h
        cases remaining with
        | nil => simp at h
        | cons a as =>
            simp only [List.isEmpty_cons, Bool.not_false, if_true] at h
            cases h
            rfl
  · intro e publish_and_init h
    rw [h]
    rfl

/-- Witness for C5: a bundle whose module name is not in the (empty)
expected set fails validation with `CONSTRAINT_NOT_SATISFIED` and nothing
is published. -/
theorem validate_publish_request_spec_witness :
    (resolve_publish_after_validation
        (validate_publish_request [⟨1, "m", []⟩] [] none (fun _ => none)
          (.ok ()) (.ok ()))
        (.ok ())).1 = false :=
  (validate_publish_request_spec [⟨1, "m", []⟩] [] none (fun _ => none)
      (.ok ()) (.ok ())).2.2
    (metadata_validation_error "unregistered module") (.ok ()) rfl

end AptosVM
